import Mathlib

/-!
Shallow embedding of `validate_project_structure.py`, a static
project-structure validator for a Visual Studio extension repository.

The filesystem is modelled as a map from paths to optional file contents.
Every filesystem primitive the script uses (`os.path.exists`,
`open(p, 'r').read()`) is embedded as a function that returns the
(unchanged) filesystem together with its result, so that the whole run
can be stated as a state-threading function and the read-only claim is
expressible.  Python substring containment (`pat in content`) and the
one regular-expression search the script performs are embedded as
executable character-list scanners with full backtracking, matching
CPython semantics on the patterns actually used.
-/

/-- A filesystem: maps a path to the text content of the file stored
there, or `none` when no file exists at that path. -/
def FS : Type := String → Option String

/-- The empty filesystem: no path exists. -/
def fsEmpty : FS := fun _ => none

/-- Embedding of `os.path.exists(p)`: reads the filesystem and never
changes it. -/
def osPathExists (fs : FS) (p : String) : FS × Bool := (fs, (fs p).isSome)

/-- Embedding of `open(p, 'r').read()`.  The script only ever reads a
file after an existence guard, so the default content for a missing
path is never observable. -/
def openRead (fs : FS) (p : String) : FS × String := (fs, (fs p).getD "")

/-- Does predicate `p` hold at some suffix of `l`?  This embeds the
scan over every start position performed by Python substring search
and by `re.search`. -/
def suffixSearch (p : List Char → Bool) : List Char → Bool
  | [] => p []
  | c :: cs => p (c :: cs) || suffixSearch p cs

/-- Embedding of Python substring containment `pat in s`. -/
def containsStr (s pat : String) : Bool :=
  suffixSearch (fun t => pat.data.isPrefixOf t) s.data

/-- The character class of the regex escape for whitespace, restricted
to the ASCII whitespace characters (space, tab, newline, vertical tab,
form feed, carriage return). -/
def isPySpace (c : Char) : Bool :=
  c = ' ' || c = '\t' || c = '\n' || c = '\x0b' || c = '\x0c' || c = '\r'

/-- Match a literal, then hand the rest of the input to the
continuation `k`. -/
def litThen (lit : List Char) (k : List Char → Bool) (l : List Char) : Bool :=
  lit.isPrefixOf l && k (List.drop lit.length l)

/-- Match one-or-more whitespace characters and then the continuation
`k`, backtracking over how many whitespace characters are consumed
(the semantics of the regex fragment for repeated whitespace followed
by the rest of the pattern). -/
def wsThen (k : List Char → Bool) : List Char → Bool
  | [] => false
  | c :: cs => isPySpace c && (k cs || wsThen k cs)

/-- The interface-declaration pattern of `check_interface_definition`
(the f-string regex `public\s+interface\s+NAME`), tried at a single
start position.  The interface names used by the script contain no
regex metacharacters, so the name is matched as a literal. -/
def interfacePatternAt (interface_name : String) (l : List Char) : Bool :=
  litThen "public".data
    (wsThen (litThen "interface".data
      (wsThen (litThen interface_name.data (fun _ => true))))) l

/-- Embedding of `re.search(interface_pattern, content)` being truthy
for the pattern above. -/
def reSearchInterface (interface_name content : String) : Bool :=
  suffixSearch (interfacePatternAt interface_name) content.data

/-- Embedding of `check_file_exists(file_path, description)`: returns
the filesystem, the lines printed, and the boolean result. -/
def check_file_exists (fs : FS) (file_path description : String) :
    FS × List String × Bool :=
  let r := osPathExists fs file_path
  if r.2 then
    (r.1, ["✅ " ++ description ++ ": " ++ file_path], true)
  else
    (r.1, ["❌ " ++ description ++ ": " ++ file_path ++ " - NOT FOUND"], false)

/-- Embedding of `check_interface_definition(file_path, interface_name)`. -/
def check_interface_definition (fs : FS) (file_path interface_name : String) :
    FS × List String × Bool :=
  let r := osPathExists fs file_path
  if !r.2 then
    (r.1, ["❌ Interface " ++ interface_name ++ ": File " ++ file_path ++
           " not found"], false)
  else
    let rd := openRead r.1 file_path
    if reSearchInterface interface_name rd.2 then
      (rd.1, ["✅ Interface " ++ interface_name ++ ": Properly defined"], true)
    else
      (rd.1, ["❌ Interface " ++ interface_name ++ ": Not properly defined"], false)

/-- The fixed list `required_packages` of `check_csproj_references`. -/
def required_packages : List String :=
  ["Microsoft.VisualStudio.SDK",
   "Microsoft.VSSDK.BuildTools",
   "Microsoft.VisualStudio.Shell.Framework",
   "LibGit2Sharp",
   "Newtonsoft.Json"]

/-- Embedding of `check_csproj_references(csproj_path)`.  The loop that
collects `missing_packages` in source order is a filter over the fixed
list. -/
def check_csproj_references (fs : FS) (csproj_path : String) :
    FS × List String × Bool :=
  let r := osPathExists fs csproj_path
  if !r.2 then
    (r.1, ["❌ Project file not found: " ++ csproj_path], false)
  else
    let rd := openRead r.1 csproj_path
    let missing_packages :=
      required_packages.filter (fun pkg => !containsStr rd.2 pkg)
    if missing_packages.isEmpty then
      (rd.1, ["✅ All required NuGet packages are referenced"], true)
    else
      (rd.1, ["❌ Missing NuGet packages: " ++
              String.intercalate ", " missing_packages], false)

/-- The fixed list `required_elements` of `check_vsix_manifest`. -/
def required_elements : List String :=
  ["DisplayName", "Description", "Identity", "Installation", "Assets"]

/-- Embedding of `check_vsix_manifest(manifest_path)`: each required
element must occur immediately preceded by an opening angle bracket. -/
def check_vsix_manifest (fs : FS) (manifest_path : String) :
    FS × List String × Bool :=
  let r := osPathExists fs manifest_path
  if !r.2 then
    (r.1, ["❌ VSIX manifest not found: " ++ manifest_path], false)
  else
    let rd := openRead r.1 manifest_path
    let missing_elements :=
      required_elements.filter (fun element => !containsStr rd.2 ("<" ++ element))
    if missing_elements.isEmpty then
      (rd.1, ["✅ VSIX manifest is properly configured"], true)
    else
      (rd.1, ["❌ VSIX manifest missing elements: " ++
              String.intercalate ", " missing_elements], false)

/-- The hardcoded base directory of `main`. -/
def base_path : String := "AiderVSExtension"

/-- The `core_files` list of `main`: full path and description. -/
def core_files : List (String × String) :=
  [(base_path ++ "/AiderVSExtension.csproj", "Project file"),
   (base_path ++ "/AiderVSExtensionPackage.cs", "Main package class"),
   (base_path ++ "/source.extension.vsixmanifest", "VSIX manifest"),
   (base_path ++ "/Properties/AssemblyInfo.cs", "Assembly info"),
   (base_path ++ "/Services/ServiceContainer.cs", "Service container")]

/-- The `interfaces` list of `main`: interface name and description. -/
def interfaces : List (String × String) :=
  [("IAiderService", "Core Aider AI service interface"),
   ("IConfigurationService", "Configuration management interface"),
   ("IFileContextService", "File and solution context interface"),
   ("IAIModelManager", "AI model management interface"),
   ("ICompletionProvider", "AI completion provider interface"),
   ("IErrorHandler", "Error handling interface"),
   ("IMessageRenderer", "Message rendering interface")]

/-- The f-string path of an interface source file in `main`. -/
def interfaceFile (interface_name : String) : String :=
  base_path ++ "/Interfaces/" ++ interface_name ++ ".cs"

/-- The `package_file` path of the service-container integration
section of `main`. -/
def package_file : String := base_path ++ "/AiderVSExtensionPackage.cs"

/-- The two-marker test of the service-container integration section:
both literal substrings must be present in the package file content. -/
def integration_marker_ok (content : String) : Bool :=
  containsStr content "ServiceContainer" && containsStr content "InitializeAsync"

/-- The separator line printed by `main` (an equals sign repeated 60
times). -/
def eqLine : String := String.mk (List.replicate 60 '=')

/-- Embedding of `main()`: threads the filesystem through every check,
accumulates the printed lines in order, and folds every executed check
result into `all_checks_passed` exactly as the source does. -/
def mainRun (fs : FS) : FS × List String × Bool :=
  let st0 : FS × List String × Bool :=
    (fs, ["🔍 Validating Visual Studio Extension Project Structure", eqLine,
          "\n📁 Core Project Files:"], true)
  let st1 := core_files.foldl (fun st cf =>
    let r := check_file_exists st.1 cf.1 cf.2
    (r.1, st.2.1 ++ r.2.1, st.2.2 && r.2.2)) st0
  let st2 := interfaces.foldl (fun st it =>
    let r := check_interface_definition st.1 (interfaceFile it.1) it.1
    (r.1, st.2.1 ++ r.2.1, st.2.2 && r.2.2))
    (st1.1, st1.2.1 ++ ["\n🔌 Interface Definitions:"], st1.2.2)
  let r3 := check_csproj_references st2.1 (base_path ++ "/AiderVSExtension.csproj")
  let st3 := (r3.1, st2.2.1 ++ ["\n⚙️ Project Configuration:"] ++ r3.2.1,
              st2.2.2 && r3.2.2)
  let r4 := check_vsix_manifest st3.1 (base_path ++ "/source.extension.vsixmanifest")
  let st4 := (r4.1, st3.2.1 ++ r4.2.1 ++ ["\n🏗️ Service Container Integration:"],
              st3.2.2 && r4.2.2)
  let rp := osPathExists st4.1 package_file
  let st5 :=
    if rp.2 then
      let rd := openRead rp.1 package_file
      if integration_marker_ok rd.2 then
        (rd.1, st4.2.1 ++ ["✅ Service container is properly integrated in main package"],
         st4.2.2)
      else
        (rd.1, st4.2.1 ++ ["❌ Service container integration incomplete"], false)
    else (rp.1, st4.2.1, st4.2.2)
  let outF := st5.2.1 ++ ["\n" ++ eqLine]
  if st5.2.2 then
    (st5.1, outF ++ ["🎉 All validation checks PASSED!",
       "✅ Task 1 requirements have been successfully implemented:",
       "   • VSIX project with proper manifest and package configuration",
       "   • Core interfaces defined for services and components",
       "   • Dependency injection container set up for service management"], true)
  else
    (st5.1, outF ++ ["❌ Some validation checks FAILED!",
       "Please review the issues above and fix them."], false)

/-- The lines printed by one run of the validator. -/
def mainOutput (fs : FS) : List String := (mainRun fs).2.1

/-- The aggregate `all_checks_passed` returned by `main`. -/
def mainResult (fs : FS) : Bool := (mainRun fs).2.2

/-- Embedding of the entry guard `exit(0 if success else 1)`. -/
def exitCode (fs : FS) : Nat := if mainResult fs then 0 else 1

/-- The boolean result of every individual check of the checklist, in
run order: the five core-file existence checks, the seven interface
checks, the csproj reference check, the manifest check, and the
integration-marker check (which requires the package file to exist and
both markers to occur in it). -/
def individual_checks (fs : FS) : List Bool :=
  core_files.map (fun cf => (check_file_exists fs cf.1 cf.2).2.2)
  ++ interfaces.map (fun it =>
       (check_interface_definition fs (interfaceFile it.1) it.1).2.2)
  ++ [(check_csproj_references fs (base_path ++ "/AiderVSExtension.csproj")).2.2,
      (check_vsix_manifest fs (base_path ++ "/source.extension.vsixmanifest")).2.2,
      (fs package_file).isSome && integration_marker_ok ((fs package_file).getD "")]

/-- The success line of the service-container integration section. -/
def scOkLine : String :=
  "✅ Service container is properly integrated in main package"

/-- The failure line of the service-container integration section. -/
def scBadLine : String := "❌ Service container integration incomplete"

/-- The lines printed by the service-container integration section of
`main`: one line when the package file exists, nothing at all when it
does not. -/
def marker_section_lines (fs : FS) : List String :=
  if (fs package_file).isSome then
    [if integration_marker_ok ((fs package_file).getD "") then scOkLine
     else scBadLine]
  else []

/-- A line mentions the missing-file detail, in either the lower-case
or the upper-case spelling the script uses. -/
def mentionsNotFound (l : String) : Bool :=
  containsStr l "not found" || containsStr l "NOT FOUND"

/-- Concrete filesystem fixture: the package file exists and mentions
the service-container marker but not the initialization marker. -/
def fsW6 : FS := fun p =>
  if p = "AiderVSExtension/AiderVSExtensionPackage.cs" then
    some "class P uses a ServiceContainer here"
  else none

/-- Concrete filesystem fixture: one file declaring an interface whose
name strictly extends the checked name. -/
def fsW10 : FS := fun p =>
  if p = "f.cs" then some "public interface IFooBar" else none

/-- Concrete filesystem fixture: a csproj file referencing only two of
the required packages. -/
def fsW4 : FS := fun p =>
  if p = "x" then some "LibGit2Sharp and Newtonsoft.Json only" else none

/-- Concrete filesystem fixture: a manifest containing every required
element behind an opening angle bracket. -/
def fsW5 : FS := fun p =>
  if p = "m" then
    some "<DisplayName<Description<Identity<Installation<Assets"
  else none

/-! Helper lemmas about the substring scanner. -/

lemma isPrefixOf_eq_true_iff :
    ∀ (pat l : List Char), pat.isPrefixOf l = true ↔ ∃ t, l = pat ++ t := by
  intro pat
  induction pat with
  | nil => intro l; simp
  | cons c cs ih =>
    intro l
    cases l with
    | nil => simp
    | cons d ds =>
      simp only [List.isPrefixOf, Bool.and_eq_true, beq_iff_eq, ih,
        List.cons_append, List.cons.injEq]
      constructor
      · rintro ⟨rfl, t, rfl⟩; exact ⟨t, rfl, rfl⟩
      · rintro ⟨t, rfl, rfl⟩; exact ⟨rfl, t, rfl⟩

lemma isPrefixOf_append_self (l t : List Char) :
    l.isPrefixOf (l ++ t) = true :=
  (isPrefixOf_eq_true_iff l (l ++ t)).mpr ⟨t, rfl⟩

lemma suffixSearch_of_append (p : List Char → Bool) (a l : List Char)
    (h : p l = true) : suffixSearch p (a ++ l) = true := by
  induction a with
  | nil => cases l <;> simp [suffixSearch, h]
  | cons x xs ih => simp [suffixSearch, ih]

lemma suffixSearch_eq_true_iff (p : List Char → Bool) (l : List Char) :
    suffixSearch p l = true ↔ ∃ a b, l = a ++ b ∧ p b = true := by
  induction l with
  | nil =>
    simp only [suffixSearch]
    constructor
    · intro h; exact ⟨[], [], rfl, h⟩
    · rintro ⟨a, b, hab, hb⟩
      rcases List.append_eq_nil.mp hab.symm with ⟨rfl, rfl⟩
      exact hb
  | cons c cs ih =>
    simp only [suffixSearch, Bool.or_eq_true, ih]
    constructor
    · rintro (h | ⟨a, b, rfl, hb⟩)
      · exact ⟨[], c :: cs, rfl, h⟩
      · exact ⟨c :: a, b, rfl, hb⟩
    · rintro ⟨a, b, hab, hb⟩
      cases a with
      | nil => left; rw [List.nil_append] at hab; rw [hab]; exact hb
      | cons x xs =>
        right
        rw [List.cons_append, List.cons.injEq] at hab
        exact ⟨xs, b, hab.2, hb⟩

lemma containsStr_eq_true_iff (s pat : String) :
    containsStr s pat = true ↔ ∃ a b, s.data = a ++ pat.data ++ b := by
  unfold containsStr
  rw [suffixSearch_eq_true_iff]
  constructor
  · rintro ⟨a, b, hab, hb⟩
    obtain ⟨t, rfl⟩ := (isPrefixOf_eq_true_iff _ _).mp hb
    exact ⟨a, t, by rw [hab, List.append_assoc]⟩
  · rintro ⟨a, b, h⟩
    exact ⟨a, pat.data ++ b, by rw [h, List.append_assoc],
      (isPrefixOf_eq_true_iff _ _).mpr ⟨b, rfl⟩⟩

lemma containsStr_append_right (x y pat : String)
    (h : containsStr y pat = true) : containsStr (x ++ y) pat = true := by
  obtain ⟨a, b, hy⟩ := (containsStr_eq_true_iff y pat).mp h
  exact (containsStr_eq_true_iff _ _).mpr
    ⟨x.data ++ a, b, by rw [String.data_append, hy]; simp [List.append_assoc]⟩

lemma containsStr_append_left (x y pat : String)
    (h : containsStr x pat = true) : containsStr (x ++ y) pat = true := by
  obtain ⟨a, b, hx⟩ := (containsStr_eq_true_iff x pat).mp h
  exact (containsStr_eq_true_iff _ _).mpr
    ⟨a, b ++ y.data, by rw [String.data_append, hx]; simp [List.append_assoc]⟩

lemma ne_of_append_of_not_prefixOf (x y : String)
    (h : x.data.isPrefixOf y.data = false) : ∀ s, x ++ s ≠ y := by
  intro s he
  have hd : x.data ++ s.data = y.data := by
    rw [← String.data_append, he]
  have : x.data.isPrefixOf y.data = true :=
    (isPrefixOf_eq_true_iff _ _).mpr ⟨s.data, hd.symm⟩
  rw [h] at this
  exact Bool.false_ne_true this

/-! Projection lemmas for the four check functions. -/

lemma check_file_exists_fst (fs : FS) (p d : String) :
    (check_file_exists fs p d).1 = fs := by
  cases h : (fs p).isSome <;> simp [check_file_exists, osPathExists, h]

lemma check_file_exists_result (fs : FS) (p d : String) :
    (check_file_exists fs p d).2.2 = (fs p).isSome := by
  cases h : (fs p).isSome <;> simp [check_file_exists, osPathExists, h]

lemma check_interface_definition_fst (fs : FS) (p n : String) :
    (check_interface_definition fs p n).1 = fs := by
  cases h : (fs p).isSome <;>
    simp [check_interface_definition, osPathExists, openRead, h] <;>
    cases hm : reSearchInterface n ((fs p).getD "") <;> simp [hm]

lemma check_interface_definition_result (fs : FS) (p n : String) :
    (check_interface_definition fs p n).2.2 =
      ((fs p).isSome && reSearchInterface n ((fs p).getD "")) := by
  cases h : (fs p).isSome <;>
    simp [check_interface_definition, osPathExists, openRead, h] <;>
    cases hm : reSearchInterface n ((fs p).getD "") <;> simp [hm]

lemma isEmpty_filter_not_eq_all (q : α → Bool) (l : List α) :
    (l.filter fun x => !q x).isEmpty = l.all q := by
  induction l with
  | nil => rfl
  | cons a t ih =>
    cases h : q a <;> simp [List.filter_cons, h, ih]

lemma check_csproj_references_fst (fs : FS) (p : String) :
    (check_csproj_references fs p).1 = fs := by
  cases h : (fs p).isSome <;>
    simp [check_csproj_references, osPathExists, openRead, h]
  split <;> rfl

lemma check_csproj_references_result (fs : FS) (p : String) :
    (check_csproj_references fs p).2.2 =
      ((fs p).isSome &&
        required_packages.all (fun pkg => containsStr ((fs p).getD "") pkg)) := by
  cases h : (fs p).isSome <;>
    simp [check_csproj_references, osPathExists, openRead, h]
  split
  · next hc => simp [List.all_eq_true.mpr hc]
  · next hc =>
      have hne : required_packages.all
          (fun pkg => containsStr ((fs p).getD "") pkg) ≠ true :=
        fun hall => hc (List.all_eq_true.mp hall)
      simp [Bool.not_eq_true] at hne
      simp [hne]

lemma check_vsix_manifest_fst (fs : FS) (p : String) :
    (check_vsix_manifest fs p).1 = fs := by
  cases h : (fs p).isSome <;>
    simp [check_vsix_manifest, osPathExists, openRead, h]
  split <;> rfl

lemma check_vsix_manifest_result (fs : FS) (p : String) :
    (check_vsix_manifest fs p).2.2 =
      ((fs p).isSome && required_elements.all
        (fun element => containsStr ((fs p).getD "") ("<" ++ element))) := by
  cases h : (fs p).isSome <;>
    simp [check_vsix_manifest, osPathExists, openRead, h]
  split
  · next hc => simp [List.all_eq_true.mpr hc]
  · next hc =>
      have hne : required_elements.all
          (fun element => containsStr ((fs p).getD "") ("<" ++ element)) ≠ true :=
        fun hall => hc (List.all_eq_true.mp hall)
      simp [Bool.not_eq_true] at hne
      simp [hne]

lemma if_bool_eta (b : Bool) : (if b = true then true else false) = b := by
  cases b <;> simp

lemma snd_snd_ite (c : Prop) [Decidable c] (x y : FS × List String × Bool) :
    (if c then x else y).2.2 = if c then x.2.2 else y.2.2 := by
  split <;> rfl

lemma ite_pair_true_eq (c : Prop) [Decidable c] (a₁ a₂ : FS)
    (b₁ b₂ : List String) :
    ((if c then (a₁, b₁, true) else (a₂, b₂, false)).2.2 = true) ↔ c := by
  split <;> simp_all

lemma mainResult_eq_all (fs : FS) :
    mainResult fs = (individual_checks fs).all id := by
  cases hp : (fs (base_path ++ "/AiderVSExtensionPackage.cs")).isSome with
  | false =>
    simp [mainResult, mainRun, individual_checks, core_files, interfaces,
      check_file_exists_fst, check_interface_definition_fst,
      check_csproj_references_fst, check_vsix_manifest_fst,
      check_file_exists_result, check_interface_definition_result,
      check_csproj_references_result, check_vsix_manifest_result,
      osPathExists, openRead, package_file, hp, if_bool_eta, Bool.and_assoc]
  | true =>
    cases hm : integration_marker_ok
        ((fs (base_path ++ "/AiderVSExtensionPackage.cs")).getD "") with
    | false =>
      simp [mainResult, mainRun, individual_checks, core_files, interfaces,
        check_file_exists_fst, check_interface_definition_fst,
        check_csproj_references_fst, check_vsix_manifest_fst,
        check_file_exists_result, check_interface_definition_result,
        check_csproj_references_result, check_vsix_manifest_result,
        osPathExists, openRead, package_file, hp, hm, if_bool_eta, Bool.and_assoc]
    | true =>
      simp only [mainResult, mainRun, individual_checks, core_files, interfaces,
        List.foldl_cons, List.foldl_nil, List.map_cons, List.map_nil,
        List.all_cons, List.all_nil, List.all_append, id_eq,
        check_file_exists_fst, check_interface_definition_fst,
        check_csproj_references_fst, check_vsix_manifest_fst,
        check_file_exists_result, check_interface_definition_result,
        check_csproj_references_result, check_vsix_manifest_result,
        osPathExists, openRead, package_file, hp, hm,
        eq_self_iff_true, if_true, Bool.true_and, Bool.and_true,
        snd_snd_ite, if_bool_eta, Bool.and_assoc]

lemma mainRun_fst (fs : FS) : (mainRun fs).1 = fs := by
  simp [mainRun, core_files, interfaces,
    check_file_exists_fst, check_interface_definition_fst,
    check_csproj_references_fst, check_vsix_manifest_fst,
    osPathExists, openRead]
  split <;> (try split) <;> (try split) <;> rfl

lemma mainOutput_decomp (fs : FS) :
    mainOutput fs =
      ["🔍 Validating Visual Studio Extension Project Structure", eqLine,
       "\n📁 Core Project Files:"]
      ++ (check_file_exists fs (base_path ++ "/AiderVSExtension.csproj") "Project file").2.1
      ++ (check_file_exists fs (base_path ++ "/AiderVSExtensionPackage.cs") "Main package class").2.1
      ++ (check_file_exists fs (base_path ++ "/source.extension.vsixmanifest") "VSIX manifest").2.1
      ++ (check_file_exists fs (base_path ++ "/Properties/AssemblyInfo.cs") "Assembly info").2.1
      ++ (check_file_exists fs (base_path ++ "/Services/ServiceContainer.cs") "Service container").2.1
      ++ ["\n🔌 Interface Definitions:"]
      ++ (check_interface_definition fs (interfaceFile "IAiderService") "IAiderService").2.1
      ++ (check_interface_definition fs (interfaceFile "IConfigurationService") "IConfigurationService").2.1
      ++ (check_interface_definition fs (interfaceFile "IFileContextService") "IFileContextService").2.1
      ++ (check_interface_definition fs (interfaceFile "IAIModelManager") "IAIModelManager").2.1
      ++ (check_interface_definition fs (interfaceFile "ICompletionProvider") "ICompletionProvider").2.1
      ++ (check_interface_definition fs (interfaceFile "IErrorHandler") "IErrorHandler").2.1
      ++ (check_interface_definition fs (interfaceFile "IMessageRenderer") "IMessageRenderer").2.1
      ++ ["\n⚙️ Project Configuration:"]
      ++ (check_csproj_references fs (base_path ++ "/AiderVSExtension.csproj")).2.1
      ++ (check_vsix_manifest fs (base_path ++ "/source.extension.vsixmanifest")).2.1
      ++ ["\n🏗️ Service Container Integration:"]
      ++ marker_section_lines fs
      ++ ["\n" ++ eqLine]
      ++ (if mainResult fs then
            ["🎉 All validation checks PASSED!",
             "✅ Task 1 requirements have been successfully implemented:",
             "   • VSIX project with proper manifest and package configuration",
             "   • Core interfaces defined for services and components",
             "   • Dependency injection container set up for service management"]
          else
            ["❌ Some validation checks FAILED!",
             "Please review the issues above and fix them."]) := by
  cases hp : (fs (base_path ++ "/AiderVSExtensionPackage.cs")).isSome with
  | false =>
    simp [mainOutput, mainResult, mainRun, core_files, interfaces,
      check_file_exists_fst, check_interface_definition_fst,
      check_csproj_references_fst, check_vsix_manifest_fst,
      check_file_exists_result,
      osPathExists, openRead, package_file, marker_section_lines, hp,
      scOkLine, scBadLine]
  | true =>
    cases hm : integration_marker_ok
        ((fs (base_path ++ "/AiderVSExtensionPackage.cs")).getD "") with
    | false =>
      simp [mainOutput, mainResult, mainRun, core_files, interfaces,
        check_file_exists_fst, check_interface_definition_fst,
        check_csproj_references_fst, check_vsix_manifest_fst,
        check_file_exists_result,
        osPathExists, openRead, package_file, marker_section_lines, hp, hm,
        scOkLine, scBadLine]
    | true =>
      simp [mainOutput, mainResult, mainRun, core_files, interfaces,
        check_file_exists_fst, check_interface_definition_fst,
        check_csproj_references_fst, check_vsix_manifest_fst,
        check_file_exists_result,
        osPathExists, openRead, package_file, marker_section_lines, hp, hm,
        scOkLine, scBadLine, ite_pair_true_eq]
      split
      · next hc => simp [hc]
      · next hc => simp only [if_neg hc]

/-! Case analyses of the lines each check can print. -/

lemma check_file_exists_lines (fs : FS) (p d : String) :
    (check_file_exists fs p d).2.1 = ["✅ " ++ d ++ ": " ++ p] ∨
    (check_file_exists fs p d).2.1 =
      ["❌ " ++ d ++ ": " ++ p ++ " - NOT FOUND"] := by
  cases h : (fs p).isSome <;> simp [check_file_exists, osPathExists, h]

lemma check_interface_definition_lines (fs : FS) (p n : String) :
    (check_interface_definition fs p n).2.1 =
      ["✅ Interface " ++ n ++ ": Properly defined"] ∨
    (check_interface_definition fs p n).2.1 =
      ["❌ Interface " ++ n ++ ": Not properly defined"] ∨
    (check_interface_definition fs p n).2.1 =
      ["❌ Interface " ++ n ++ ": File " ++ p ++ " not found"] := by
  cases h : (fs p).isSome
  · simp [check_interface_definition, osPathExists, openRead, h]
  · cases hm : reSearchInterface n ((fs p).getD "") <;>
      simp [check_interface_definition, osPathExists, openRead, h, hm]

lemma check_csproj_references_lines (fs : FS) (p : String) :
    (check_csproj_references fs p).2.1 =
      ["✅ All required NuGet packages are referenced"] ∨
    (∃ m : String, (check_csproj_references fs p).2.1 =
      ["❌ Missing NuGet packages: " ++ m]) ∨
    (check_csproj_references fs p).2.1 =
      ["❌ Project file not found: " ++ p] := by
  simp only [check_csproj_references, osPathExists, openRead]
  split
  · next => exact Or.inr (Or.inr rfl)
  · next =>
    split
    · next => exact Or.inl rfl
    · next => exact Or.inr (Or.inl ⟨_, rfl⟩)

lemma check_vsix_manifest_lines (fs : FS) (p : String) :
    (check_vsix_manifest fs p).2.1 =
      ["✅ VSIX manifest is properly configured"] ∨
    (∃ m : String, (check_vsix_manifest fs p).2.1 =
      ["❌ VSIX manifest missing elements: " ++ m]) ∨
    (check_vsix_manifest fs p).2.1 =
      ["❌ VSIX manifest not found: " ++ p] := by
  simp only [check_vsix_manifest, osPathExists, openRead]
  split
  · next => exact Or.inr (Or.inr rfl)
  · next =>
    split
    · next => exact Or.inl rfl
    · next => exact Or.inr (Or.inl ⟨_, rfl⟩)

lemma check_file_exists_lines_ne (fs : FS) (p d : String) :
    (check_file_exists fs p d).2.1 ≠ [] := by
  rcases check_file_exists_lines fs p d with h | h <;> simp [h]

lemma check_interface_definition_lines_ne (fs : FS) (p n : String) :
    (check_interface_definition fs p n).2.1 ≠ [] := by
  rcases check_interface_definition_lines fs p n with h | h | h <;> simp [h]

lemma check_csproj_references_lines_ne (fs : FS) (p : String) :
    (check_csproj_references fs p).2.1 ≠ [] := by
  rcases check_csproj_references_lines fs p with h | ⟨m, h⟩ | h <;> simp [h]

lemma check_vsix_manifest_lines_ne (fs : FS) (p : String) :
    (check_vsix_manifest fs p).2.1 ≠ [] := by
  rcases check_vsix_manifest_lines fs p with h | ⟨m, h⟩ | h <;> simp [h]

/-! Lemmas for running the regex matcher over a decomposed input. -/

lemma litThen_append (lit : List Char) (k : List Char → Bool) (l : List Char) :
    litThen lit k (lit ++ l) = k l := by
  simp [litThen, isPrefixOf_append_self, List.drop_left]

lemma wsThen_append (k : List Char → Bool) :
    ∀ (w l : List Char), (∀ c ∈ w, isPySpace c = true) → w ≠ [] →
      k l = true → wsThen k (w ++ l) = true := by
  intro w
  induction w with
  | nil => intro l _ hne _; exact absurd rfl hne
  | cons c w ih =>
    intro l hs _ hk
    cases w with
    | nil => simp [wsThen, hs c (by simp), hk]
    | cons d w2 =>
      have hrec := ih l (fun x hx => hs x (List.mem_cons_of_mem c hx))
        (by simp) hk
      have heq : wsThen k (c :: d :: w2 ++ l) =
          (isPySpace c && (k (d :: w2 ++ l) || wsThen k (d :: w2 ++ l))) := rfl
      rw [heq, hs c (by simp), hrec]
      simp

lemma reSearchInterface_of_decomp (name content : String)
    (a w1 w2 rest : List Char)
    (hd : content.data =
      a ++ "public".data ++ w1 ++ "interface".data ++ w2 ++ name.data ++ rest)
    (hw1s : ∀ c ∈ w1, isPySpace c = true) (hw1 : w1 ≠ [])
    (hw2s : ∀ c ∈ w2, isPySpace c = true) (hw2 : w2 ≠ []) :
    reSearchInterface name content = true := by
  unfold reSearchInterface interfacePatternAt
  rw [hd]
  have hassoc :
      a ++ "public".data ++ w1 ++ "interface".data ++ w2 ++ name.data ++ rest
        = a ++ ("public".data ++ (w1 ++ ("interface".data ++
            (w2 ++ (name.data ++ rest))))) := by
    simp [List.append_assoc]
  rw [hassoc]
  apply suffixSearch_of_append
  rw [litThen_append]
  apply wsThen_append _ _ _ hw1s hw1
  rw [litThen_append]
  apply wsThen_append _ _ _ hw2s hw2
  rw [litThen_append]

/-- C1: for every filesystem state, the exit status is the success code
0 precisely when every individual check across all groups (core-file
existence, interface pattern, csproj references, manifest elements,
integration marker) returned true; the aggregate is the AND-fold over
the per-check booleans, and a single failing check anywhere forces the
failure exit code 1. -/
theorem c1_exit_success_iff_all_checks (fs : FS) :
    (exitCode fs = 0 ↔ (individual_checks fs).all id = true) ∧
    ((individual_checks fs).all id = false → exitCode fs = 1) := by
  have h : (mainRun fs).2.2 = (individual_checks fs).all id :=
    mainResult_eq_all fs
  constructor
  · cases hall : (individual_checks fs).all id <;>
      simp [exitCode, mainResult, h, hall]
  · intro hall; simp [exitCode, mainResult, h, hall]

/-- Witness for C1 at the empty filesystem: a failing check forces exit
code 1. -/
theorem c1_witness : exitCode fsEmpty = 1 :=
  (c1_exit_success_iff_all_checks fsEmpty).2 (by decide)

/-- C7: the validator is deterministic; two runs against an identical
filesystem state produce identical printed output and exit status. -/
theorem c7_deterministic (fs1 fs2 : FS) (h : ∀ p, fs1 p = fs2 p) :
    mainOutput fs1 = mainOutput fs2 ∧ exitCode fs1 = exitCode fs2 := by
  have he : fs1 = fs2 := funext h
  subst he
  exact ⟨rfl, rfl⟩

/-- Witness for C7 at the empty filesystem. -/
theorem c7_witness :
    mainOutput fsEmpty = mainOutput fsEmpty ∧
      exitCode fsEmpty = exitCode fsEmpty :=
  c7_deterministic fsEmpty fsEmpty (fun _ => rfl)

/-- C8: no operation of the validator mutates the filesystem: each of
the four check functions and the whole orchestrated run return the
filesystem they were given. -/
theorem c8_read_only (fs : FS) (p d n c m : String) :
    (check_file_exists fs p d).1 = fs ∧
    (check_interface_definition fs p n).1 = fs ∧
    (check_csproj_references fs c).1 = fs ∧
    (check_vsix_manifest fs m).1 = fs ∧
    (mainRun fs).1 = fs :=
  ⟨check_file_exists_fst fs p d, check_interface_definition_fst fs p n,
   check_csproj_references_fst fs c, check_vsix_manifest_fst fs m,
   mainRun_fst fs⟩

/-- C10: the interface-pattern check has no trailing boundary: whenever
the content contains the word public, one or more whitespace
characters, the word interface, one or more whitespace characters, and
then the checked name followed by arbitrary further characters (for
example more identifier characters of a longer interface name), the
check succeeds. -/
theorem c10_no_trailing_boundary (fs : FS)
    (p interface_name content : String) (a w1 w2 rest : List Char)
    (hfs : fs p = some content)
    (hd : content.data = a ++ "public".data ++ w1 ++ "interface".data ++
      w2 ++ interface_name.data ++ rest)
    (hw1s : ∀ c ∈ w1, isPySpace c = true) (hw1 : w1 ≠ [])
    (hw2s : ∀ c ∈ w2, isPySpace c = true) (hw2 : w2 ≠ []) :
    (check_interface_definition fs p interface_name).2.2 = true := by
  rw [check_interface_definition_result]
  have hsome : (fs p).isSome = true := by simp [hfs]
  have hget : (fs p).getD "" = content := by simp [hfs]
  rw [hsome, hget, reSearchInterface_of_decomp interface_name content
    a w1 w2 rest hd hw1s hw1 hw2s hw2]
  rfl

/-- Witness for C10: the file declares the longer interface IFooBar,
yet the check for IFoo succeeds. -/
theorem c10_witness :
    (check_interface_definition fsW10 "f.cs" "IFoo").2.2 = true :=
  c10_no_trailing_boundary fsW10 "f.cs" "IFoo" "public interface IFooBar"
    [] [' '] [' '] "Bar".data (by decide) (by decide) (by decide)
    (by decide) (by decide) (by decide)

lemma check_csproj_references_missing_lines (fs : FS) (p : String)
    (hsome : (fs p).isSome = true)
    (hall : required_packages.all
      (fun pkg => containsStr ((fs p).getD "") pkg) = false) :
    (check_csproj_references fs p).2.1 =
      ["❌ Missing NuGet packages: " ++ String.intercalate ", "
        (required_packages.filter
          (fun pkg => !containsStr ((fs p).getD "") pkg))] := by
  simp only [check_csproj_references, osPathExists, openRead]
  split
  · next hc => rw [hsome] at hc; simp at hc
  · next =>
    split
    · next hc =>
        rw [isEmpty_filter_not_eq_all, hall] at hc
        simp at hc
    · next => rfl

lemma mainResult_false_of_marker_false (fs : FS) (content : String)
    (h : fs package_file = some content)
    (hmark : integration_marker_ok content = false) :
    mainResult fs = false := by
  rw [mainResult_eq_all]
  simp [individual_checks, core_files, interfaces, List.all_append,
    h, hmark]

/-- C3: for a path that does not exist, the existence check and each
dependent check (interface pattern, csproj reference, manifest element)
return false and print a failure line with the missing-file detail; in
this total embedding none of them can raise. -/
theorem c3_missing_path_checks_fail (fs : FS) (p d n : String)
    (h : fs p = none) :
    ((check_file_exists fs p d).2.2 = false ∧
      ∃ l ∈ (check_file_exists fs p d).2.1, mentionsNotFound l = true) ∧
    ((check_interface_definition fs p n).2.2 = false ∧
      ∃ l ∈ (check_interface_definition fs p n).2.1,
        mentionsNotFound l = true) ∧
    ((check_csproj_references fs p).2.2 = false ∧
      ∃ l ∈ (check_csproj_references fs p).2.1,
        mentionsNotFound l = true) ∧
    ((check_vsix_manifest fs p).2.2 = false ∧
      ∃ l ∈ (check_vsix_manifest fs p).2.1, mentionsNotFound l = true) := by
  have hsome : (fs p).isSome = false := by simp [h]
  refine ⟨⟨?_, ?_⟩, ⟨?_, ?_⟩, ⟨?_, ?_⟩, ⟨?_, ?_⟩⟩
  · rw [check_file_exists_result, hsome]
  · refine ⟨"❌ " ++ d ++ ": " ++ p ++ " - NOT FOUND", ?_, ?_⟩
    · simp [check_file_exists, osPathExists, hsome]
    · have h2 : containsStr ("❌ " ++ d ++ ": " ++ p ++ " - NOT FOUND")
          "NOT FOUND" = true :=
        containsStr_append_right _ _ _ (by decide)
      simp [mentionsNotFound, h2]
  · rw [check_interface_definition_result, hsome]; rfl
  · refine ⟨"❌ Interface " ++ n ++ ": File " ++ p ++ " not found", ?_, ?_⟩
    · simp [check_interface_definition, osPathExists, hsome]
    · have h2 : containsStr
          ("❌ Interface " ++ n ++ ": File " ++ p ++ " not found")
          "not found" = true :=
        containsStr_append_right _ _ _ (by decide)
      simp [mentionsNotFound, h2]
  · rw [check_csproj_references_result, hsome]; rfl
  · refine ⟨"❌ Project file not found: " ++ p, ?_, ?_⟩
    · simp [check_csproj_references, osPathExists, hsome]
    · have h2 : containsStr ("❌ Project file not found: " ++ p)
          "not found" = true :=
        containsStr_append_left _ _ _ (by decide)
      simp [mentionsNotFound, h2]
  · rw [check_vsix_manifest_result, hsome]; rfl
  · refine ⟨"❌ VSIX manifest not found: " ++ p, ?_, ?_⟩
    · simp [check_vsix_manifest, osPathExists, hsome]
    · have h2 : containsStr ("❌ VSIX manifest not found: " ++ p)
          "not found" = true :=
        containsStr_append_left _ _ _ (by decide)
      simp [mentionsNotFound, h2]

/-- Witness for C3 at the empty filesystem and a concrete path. -/
theorem c3_witness :
    (check_file_exists fsEmpty "q.cs" "thing").2.2 = false ∧
      ∃ l ∈ (check_file_exists fsEmpty "q.cs" "thing").2.1,
        mentionsNotFound l = true :=
  (c3_missing_path_checks_fail fsEmpty "q.cs" "thing" "IFoo" rfl).1

/-- C4: the csproj reference check succeeds precisely when each of the
five required package names occurs as a case-sensitive substring of the
content, regardless of order or position; when it fails, its single
printed message lists exactly the missing names, comma separated, in
the fixed order. -/
theorem c4_csproj_reference_check (fs : FS) (p content : String)
    (h : fs p = some content) :
    ((check_csproj_references fs p).2.2 = true ↔
      ∀ pkg ∈ required_packages,
        ∃ a b, content.data = a ++ pkg.data ++ b) ∧
    ((check_csproj_references fs p).2.2 = false →
      ∃ m : List String, m ≠ [] ∧
        (check_csproj_references fs p).2.1 =
          ["❌ Missing NuGet packages: " ++ String.intercalate ", " m] ∧
        (∀ pkg, pkg ∈ m ↔ pkg ∈ required_packages ∧
          ¬∃ a b, content.data = a ++ pkg.data ++ b)) := by
  have hsome : (fs p).isSome = true := by simp [h]
  have hget : (fs p).getD "" = content := by simp [h]
  constructor
  · rw [check_csproj_references_result, hsome, hget]
    simp [List.all_eq_true, containsStr_eq_true_iff]
  · intro hfalse
    rw [check_csproj_references_result, hsome, hget] at hfalse
    simp only [Bool.true_and] at hfalse
    refine ⟨required_packages.filter (fun pkg => !containsStr content pkg),
      ?_, ?_, ?_⟩
    · exact List.isEmpty_eq_false.mp
        (by rw [isEmpty_filter_not_eq_all, hfalse])
    · have hl := check_csproj_references_missing_lines fs p hsome
        (by rw [hget]; exact hfalse)
      rw [hget] at hl
      exact hl
    · intro pkg
      simp only [List.mem_filter, Bool.not_eq_true']
      constructor
      · rintro ⟨hmem, hc⟩
        refine ⟨hmem, fun hex => ?_⟩
        rw [(containsStr_eq_true_iff content pkg).mpr hex] at hc
        simp at hc
      · rintro ⟨hmem, hnex⟩
        refine ⟨hmem, ?_⟩
        cases hcb : containsStr content pkg
        · rfl
        · exact absurd ((containsStr_eq_true_iff content pkg).mp hcb) hnex

/-- Witness for C4 at a concrete csproj content missing three of the
required packages. -/
theorem c4_witness :
    (check_csproj_references fsW4 "x").2.2 = true ↔
      ∀ pkg ∈ required_packages,
        ∃ a b, ("LibGit2Sharp and Newtonsoft.Json only" : String).data =
          a ++ pkg.data ++ b :=
  (c4_csproj_reference_check fsW4 "x"
    "LibGit2Sharp and Newtonsoft.Json only" (by decide)).1

/-- C5: the manifest check succeeds precisely when, for each of the
five required element names, an opening angle bracket immediately
followed by that name occurs somewhere in the content. -/
theorem c5_manifest_check (fs : FS) (p content : String)
    (h : fs p = some content) :
    (check_vsix_manifest fs p).2.2 = true ↔
      ∀ e ∈ required_elements,
        ∃ a b, content.data = a ++ ("<" ++ e).data ++ b := by
  have hsome : (fs p).isSome = true := by simp [h]
  have hget : (fs p).getD "" = content := by simp [h]
  rw [check_vsix_manifest_result, hsome, hget]
  simp [List.all_eq_true, containsStr_eq_true_iff]

/-- Witness for C5 at a concrete manifest content containing all five
required elements. -/
theorem c5_witness :
    (check_vsix_manifest fsW5 "m").2.2 = true ↔
      ∀ e ∈ required_elements,
        ∃ a b, ("<DisplayName<Description<Identity<Installation<Assets" :
          String).data = a ++ ("<" ++ e).data ++ b :=
  c5_manifest_check fsW5 "m"
    "<DisplayName<Description<Identity<Installation<Assets" (by decide)

/-- C6: the integration-marker check succeeds precisely when both fixed
literal substrings occur in the package file content; if exactly one of
the two is present the check fails and forces the aggregate false. -/
theorem c6_integration_markers (fs : FS) (content : String)
    (h : fs package_file = some content) :
    (integration_marker_ok content = true ↔
      ((∃ a b, content.data = a ++ "ServiceContainer".data ++ b) ∧
        ∃ a b, content.data = a ++ "InitializeAsync".data ++ b)) ∧
    ((((∃ a b, content.data = a ++ "ServiceContainer".data ++ b) ∧
        ¬∃ a b, content.data = a ++ "InitializeAsync".data ++ b) ∨
      ((¬∃ a b, content.data = a ++ "ServiceContainer".data ++ b) ∧
        ∃ a b, content.data = a ++ "InitializeAsync".data ++ b)) →
      mainResult fs = false) := by
  constructor
  · simp [integration_marker_ok, Bool.and_eq_true, containsStr_eq_true_iff]
  · intro hx
    have hmark : integration_marker_ok content = false := by
      rcases hx with ⟨hex, hnex⟩ | ⟨hnex, hex⟩
      · have hia : containsStr content "InitializeAsync" = false := by
          cases hcb : containsStr content "InitializeAsync"
          · rfl
          · exact absurd ((containsStr_eq_true_iff _ _).mp hcb) hnex
        simp [integration_marker_ok, hia]
      · have hsc : containsStr content "ServiceContainer" = false := by
          cases hcb : containsStr content "ServiceContainer"
          · rfl
          · exact absurd ((containsStr_eq_true_iff _ _).mp hcb) hnex
        simp [integration_marker_ok, hsc]
    exact mainResult_false_of_marker_false fs content h hmark

/-- Witness for C6: a package file mentioning only the
service-container marker makes the whole run fail. -/
theorem c6_witness : mainResult fsW6 = false :=
  (c6_integration_markers fsW6 "class P uses a ServiceContainer here"
    (by decide)).2
    (Or.inl ⟨⟨"class P uses a ".data, " here".data, by decide⟩,
      fun hex => absurd ((containsStr_eq_true_iff _ _).mpr hex)
        (by decide)⟩)

lemma notin_check_file_exists (fs : FS) (p d x : String)
    (h1 : x ≠ "✅ " ++ d ++ ": " ++ p)
    (h2 : x ≠ "❌ " ++ d ++ ": " ++ p ++ " - NOT FOUND") :
    x ∉ (check_file_exists fs p d).2.1 := by
  rcases check_file_exists_lines fs p d with hl | hl <;> rw [hl] <;>
    simp [h1, h2]

lemma notin_check_interface_definition (fs : FS) (p n x : String)
    (h1 : x ≠ "✅ Interface " ++ n ++ ": Properly defined")
    (h2 : x ≠ "❌ Interface " ++ n ++ ": Not properly defined")
    (h3 : x ≠ "❌ Interface " ++ n ++ ": File " ++ p ++ " not found") :
    x ∉ (check_interface_definition fs p n).2.1 := by
  rcases check_interface_definition_lines fs p n with hl | hl | hl <;>
    rw [hl] <;> simp [h1, h2, h3]

lemma notin_check_csproj_references (fs : FS) (p x : String)
    (h1 : x ≠ "✅ All required NuGet packages are referenced")
    (h2 : ∀ s, "❌ Missing NuGet packages: " ++ s ≠ x)
    (h3 : x ≠ "❌ Project file not found: " ++ p) :
    x ∉ (check_csproj_references fs p).2.1 := by
  rcases check_csproj_references_lines fs p with hl | ⟨m, hl⟩ | hl <;> rw [hl]
  · simp [h1]
  · intro hx
    rw [List.mem_singleton] at hx
    exact h2 m hx.symm
  · simp [h3]

lemma notin_check_vsix_manifest (fs : FS) (p x : String)
    (h1 : x ≠ "✅ VSIX manifest is properly configured")
    (h2 : ∀ s, "❌ VSIX manifest missing elements: " ++ s ≠ x)
    (h3 : x ≠ "❌ VSIX manifest not found: " ++ p) :
    x ∉ (check_vsix_manifest fs p).2.1 := by
  rcases check_vsix_manifest_lines fs p with hl | ⟨m, hl⟩ | hl <;> rw [hl]
  · simp [h1]
  · intro hx
    rw [List.mem_singleton] at hx
    exact h2 m hx.symm
  · simp [h3]

lemma sc_not_printed (fs : FS)
    (h : (fs (base_path ++ "/AiderVSExtensionPackage.cs")).isSome = false)
    (x : String) (hx : x = scOkLine ∨ x = scBadLine) :
    x ∉ mainOutput fs := by
  have hres : mainResult fs = false := by
    rw [mainResult_eq_all]
    simp [individual_checks, core_files, interfaces, List.all_append,
      check_file_exists_result, h]
  have hmarker : marker_section_lines fs = [] := by
    simp [marker_section_lines, package_file, h]
  rw [mainOutput_decomp, hmarker, hres]
  rcases hx with rfl | rfl <;>
  · simp only [Bool.false_eq_true, if_false, List.append_nil,
      List.nil_append, List.append_assoc, List.mem_append, List.mem_cons,
      List.mem_singleton, List.not_mem_nil, or_false, false_or, not_or]
    repeat' apply And.intro
    all_goals first
      | exact (by decide)
      | exact notin_check_file_exists fs _ _ _ (by decide) (by decide)
      | exact notin_check_interface_definition fs _ _ _ (by decide)
          (by decide) (by decide)
      | exact notin_check_csproj_references fs _ _ (by decide)
          (fun s => ne_of_append_of_not_prefixOf _ _ (by decide) s)
          (by decide)
      | exact notin_check_vsix_manifest fs _ _ (by decide)
          (fun s => ne_of_append_of_not_prefixOf _ _ (by decide) s)
          (by decide)

/-- C9: when the main package file does not exist, the run still ends
with the aggregate false and the failure exit code, because the
core-file existence check for that same path fails, while the
integration-marker section prints neither of its outcome lines and
contributes no boolean to the aggregate. -/
theorem c9_missing_package_file_still_fails (fs : FS)
    (h : fs (base_path ++ "/AiderVSExtensionPackage.cs") = none) :
    mainResult fs = false ∧ exitCode fs = 1 ∧
    marker_section_lines fs = [] ∧
    scOkLine ∉ mainOutput fs ∧ scBadLine ∉ mainOutput fs := by
  have hsome : (fs (base_path ++ "/AiderVSExtensionPackage.cs")).isSome
      = false := by simp [h]
  have hres : mainResult fs = false := by
    rw [mainResult_eq_all]
    simp [individual_checks, core_files, interfaces, List.all_append,
      check_file_exists_result, hsome]
  refine ⟨hres, ?_, ?_, ?_, ?_⟩
  · simp [exitCode, hres]
  · simp [marker_section_lines, package_file, hsome]
  · exact sc_not_printed fs hsome scOkLine (Or.inl rfl)
  · exact sc_not_printed fs hsome scBadLine (Or.inr rfl)

/-- Witness for C9 at the empty filesystem. -/
theorem c9_witness :
    mainResult fsEmpty = false ∧ exitCode fsEmpty = 1 :=
  ⟨(c9_missing_package_file_still_fails fsEmpty rfl).1,
   (c9_missing_package_file_still_fails fsEmpty rfl).2.1⟩

/-- Counterexample to C2 as stated: on the empty filesystem the
service-container integration section prints its header but neither
outcome line of the integration-marker check, so that check is skipped
and reports no result. -/
theorem c2_counterexample :
    "\n🏗️ Service Container Integration:" ∈ mainOutput fsEmpty ∧
    scOkLine ∉ mainOutput fsEmpty ∧ scBadLine ∉ mainOutput fsEmpty := by
  refine ⟨by decide, by decide, by decide⟩

/-- C2 as amended: every check except the integration-marker check is
executed and its (always nonempty) report appears in the output for
every filesystem state, regardless of the outcome of other checks; the
integration-marker check reports into the output when the package file
exists and reports nothing at all when it does not. -/
theorem c2_every_other_check_reports (fs : FS) :
    (∀ cf ∈ core_files,
      (check_file_exists fs cf.1 cf.2).2.1 ≠ [] ∧
      (check_file_exists fs cf.1 cf.2).2.1 ⊆ mainOutput fs) ∧
    (∀ it ∈ interfaces,
      (check_interface_definition fs (interfaceFile it.1) it.1).2.1 ≠ [] ∧
      (check_interface_definition fs (interfaceFile it.1) it.1).2.1 ⊆
        mainOutput fs) ∧
    ((check_csproj_references fs
        (base_path ++ "/AiderVSExtension.csproj")).2.1 ≠ [] ∧
      (check_csproj_references fs
        (base_path ++ "/AiderVSExtension.csproj")).2.1 ⊆ mainOutput fs) ∧
    ((check_vsix_manifest fs
        (base_path ++ "/source.extension.vsixmanifest")).2.1 ≠ [] ∧
      (check_vsix_manifest fs
        (base_path ++ "/source.extension.vsixmanifest")).2.1 ⊆
        mainOutput fs) ∧
    (marker_section_lines fs ⊆ mainOutput fs) ∧
    (marker_section_lines fs = [] ↔ (fs package_file).isSome = false) := by
  refine ⟨?_, ?_, ⟨check_csproj_references_lines_ne fs _, ?_⟩,
    ⟨check_vsix_manifest_lines_ne fs _, ?_⟩, ?_, ?_⟩
  · intro cf hcf
    fin_cases hcf <;>
      refine ⟨check_file_exists_lines_ne fs _ _, ?_⟩ <;>
      · rw [mainOutput_decomp]
        intro x hx
        simp only [List.append_assoc, List.mem_append, List.mem_cons] at hx ⊢
        tauto
  · intro it hit
    fin_cases hit <;>
      refine ⟨check_interface_definition_lines_ne fs _ _, ?_⟩ <;>
      · rw [mainOutput_decomp]
        intro x hx
        simp only [List.append_assoc, List.mem_append, List.mem_cons] at hx ⊢
        tauto
  · rw [mainOutput_decomp]
    intro x hx
    simp only [List.append_assoc, List.mem_append, List.mem_cons] at hx ⊢
    tauto
  · rw [mainOutput_decomp]
    intro x hx
    simp only [List.append_assoc, List.mem_append, List.mem_cons] at hx ⊢
    tauto
  · rw [mainOutput_decomp]
    intro x hx
    simp only [List.append_assoc, List.mem_append, List.mem_cons] at hx ⊢
    tauto
  · rw [marker_section_lines]
    cases hq : (fs package_file).isSome <;> simp [hq]

/-- Witness for C2 as amended: on the empty filesystem the failing
existence report of the project file appears in the output. -/
theorem c2_witness :
    "❌ Project file: AiderVSExtension/AiderVSExtension.csproj - NOT FOUND"
      ∈ mainOutput fsEmpty :=
  ((c2_every_other_check_reports fsEmpty).1
    (base_path ++ "/AiderVSExtension.csproj", "Project file")
    (by decide)).2 (by decide)
